import Mathlib

/-!
Verification of the gon-cloud-platform control plane (Go sources) against its
natural-language specification.  The Go code is shallowly embedded: switch
state and the relational store become explicit state records, external
`ovs-vsctl` invocations become outcome values, and every service function is
translated branch by branch from the source.

Sources embedded here:
  * `control-plane/internal/network/ovs_manager.go` — the OVS manager
    (`CreateBridge`, `DeleteBridge`, `BridgeExists`, `DeletePort`,
    `buildFlowSpec`, `validateBridgeName`).
  * `control-plane/internal/services/vpc_service.go` — the VPC service
    (`CreateVPC`, `UpdateVPC`, `DeleteVPC`, `validateCIDRBlock`).
  * `control-plane/internal/database/repositories/vpc_repo.go` — the VPC
    repository (`Create`, `Update`, `Delete`, `GetByID`, `GetByName`).
-/

namespace GCP

/-! ## IPv4 CIDR blocks

Go's `net.ParseCIDR` is abstracted to its result: a 32-bit address together
with the prefix length (`ones`, as returned by `ipNet.Mask.Size()`).  A value
of `none` for an `Option CIDR` models a string `net.ParseCIDR` rejects. -/

/-- An already-parsed IPv4 CIDR block: `ip` is the (possibly unmasked)
address as a natural number below `2^32`, `ones` the prefix length. -/
structure CIDR where
  ip : Nat
  ones : Nat
deriving Repr, DecidableEq

/-- The network address of a block: the address with the host bits masked
off.  Models `ipNet.IP` as returned by `net.ParseCIDR` (Go masks the parsed
address with the prefix mask). -/
def networkAddr (c : CIDR) : Nat :=
  c.ip / 2 ^ (32 - c.ones) * 2 ^ (32 - c.ones)

/-- Go `net.IPNet.Contains` for a range given by base address and prefix
length: the candidate address agrees with the base on the prefix bits. -/
def inNet (baseIp baseOnes addr : Nat) : Bool :=
  decide (addr / 2 ^ (32 - baseOnes) = baseIp / 2 ^ (32 - baseOnes))

/-- The RFC1918 membership test of `vpcService.validateCIDRBlock`: the masked
network address lies in `10.0.0.0/8`, `172.16.0.0/12` or `192.168.0.0/16`. -/
def isPrivateAddr (addr : Nat) : Bool :=
  inNet (10 * 2 ^ 24) 8 addr ||
  inNet (172 * 2 ^ 24 + 16 * 2 ^ 16) 12 addr ||
  inNet (192 * 2 ^ 24 + 168 * 2 ^ 16) 16 addr

/-- Embeds `vpcService.validateCIDRBlock`: parse (a `none` input is the parse
error), require the network address to be RFC1918-private, and require the
prefix length to lie in `[16, 28]`. -/
def validateCIDRBlock : Option CIDR → Bool
  | none => false
  | some c =>
    isPrivateAddr (networkAddr c) && decide (16 ≤ c.ones) && decide (c.ones ≤ 28)

/-! ## Bridge naming and name validation -/

/-- Character class accepted by `validateBridgeName`
(regex `^[a-zA-Z0-9_-]+$`). -/
def isValidBridgeChar (c : Char) : Bool :=
  c.isAlpha || c.isDigit || c = '_' || c = '-'

/-- Embeds `ovsManager.validateBridgeName`: nonempty, at most 15 characters, only
alphanumerics, hyphens and underscores.  `true` means the name is accepted. -/
def validateBridgeName (name : String) : Bool :=
  decide (0 < name.data.length) && decide (name.data.length ≤ 15) &&
    name.data.all isValidBridgeChar

/-- The bridge name the VPC service derives from a VPC id:
`fmt.Sprintf("gcp-vpc-%s", vpc.ID[:8])`.  `ID[:8]` takes the first 8 bytes;
ids are ASCII 36-character UUID strings, so this is the first 8 characters
and the embedding is exact for every id of at least 8 bytes.  On ids
shorter than 8 bytes Go's `id[:8]` instead panics with a slice-bounds
error; `List.take` truncates there, standing for the hypothetical shorter
naming scheme under which bridge creation can succeed at all (every real
16-character derived name fails `validateBridgeName`, see C1). -/
def bridgeNameOf (vpcId : String) : String :=
  String.mk ("gcp-vpc-".data ++ vpcId.data.take 8)

/-! ## External command execution

`ovsManager.runCommand` shells out via `exec.Cmd.Run`.  The possible
outcomes of one invocation: the process exits zero; the process runs but
exits non-zero (Go returns an `*exec.ExitError`, whose `ExitCode()` is the
exit status, or `-1` if the process was killed); or the command could not be
run at all (any other error).  The child's stderr is carried in the outcome
so the model can state what the tool printed, but `cmd.Run()` leaves
`cmd.Stderr` nil, so the text is discarded by the Go code. -/
inductive ExecOutcome where
  | success : ExecOutcome
  | exitError (code : Int) (stderr : String) : ExecOutcome
  | execFailure (msg : String) : ExecOutcome
deriving Repr, DecidableEq

/-- The message of the `error` value `runCommand` hands back, `none` when the
command succeeded.  `exec.ExitError.Error()` renders as
`"exit status <code>"`; the stderr text is not part of it because
`cmd.Run()` discards the child's stderr. -/
def runCommandError : ExecOutcome → Option String
  | .success => none
  | .exitError code _ => some ("exit status " ++ toString code)
  | .execFailure msg => some msg

/-! ## Switch state

The live Open vSwitch state visible to the manager: the set of bridges and
the (bridge, port) attachments.  The `ovs-vsctl` tool answers queries and
applies mutations against this state; it is modelled as responding
truthfully, with injectable failure where a claim depends on a failing
tool run. -/

structure SwitchState where
  bridges : List String
  ports : List (String × String)
deriving Repr, DecidableEq

/-- Failure injection for the external collaborators of the VPC service: the
outcome of the DB insert, of the `ovs-vsctl`/`ip` mutations inside
`CreateBridge`, and of the rollback DB delete. -/
structure Env where
  dbCreateOk : Bool
  bridgeOk : Bool
  dbDeleteOk : Bool
deriving Repr, DecidableEq

/-- Embeds `ovsManager.BridgeExists`, as a function of the `ovs-vsctl br-exists`
outcome: exit 0 is `(true, nil)`; an `*exec.ExitError` with `ExitCode() == 2`
is the defined "bridge absent" outcome `(false, nil)`; every other failure is
surfaced as an error. -/
def bridgeExists : ExecOutcome → Except String Bool
  | .success => .ok true
  | .exitError code _ =>
    if code = 2 then .ok false
    else .error "failed to check bridge existence"
  | .execFailure msg => .error ("failed to check bridge existence: " ++ msg)

/-- Embeds `ovsManager.CreateBridge` (the `br-exists` probe is modelled as
truthfully reporting `name ∈ s.bridges`): validate the name, fail if the
bridge already exists, parse the CIDR, then run the `add-br`/`ip link`
mutations — their collective success is `env.bridgeOk`.  The per-option
`ovs-vsctl set bridge` hardening commands only log on failure and do not
change the outcome. -/
def createBridge (env : Env) (s : SwitchState) (name : String)
    (cidr : Option CIDR) : Except String SwitchState :=
  if ¬ validateBridgeName name then .error "invalid bridge name"
  else if name ∈ s.bridges then .error ("bridge " ++ name ++ " already exists")
  else
    match cidr with
    | none => .error "invalid CIDR"
    | some _ =>
      if env.bridgeOk then .ok { s with bridges := name :: s.bridges }
      else .error "failed to create bridge"

/-- Embeds `ovsManager.DeleteBridge`: an absent bridge is a no-op success;
otherwise `ovs-vsctl del-br` removes the bridge and its ports (tool success
modelled). -/
def deleteBridge (s : SwitchState) (name : String) : SwitchState :=
  { s with
    bridges := s.bridges.erase name
    ports := s.ports.filter (fun pr => pr.1 ≠ name) }

/-! ## DeletePort and the dead "no port named" check -/

/-- Go `strings.HasPrefix` on character lists. -/
def startsWithChars : List Char → List Char → Bool
  | [], _ => true
  | _ :: _, [] => false
  | p :: ps, c :: cs => p = c && startsWithChars ps cs

/-- Substring occurrence on character lists. -/
def hasSubChars (pat : List Char) : List Char → Bool
  | [] => startsWithChars pat []
  | c :: cs => startsWithChars pat (c :: cs) || hasSubChars pat cs

/-- Go `strings.Contains s pat`. -/
def strContains (s pat : String) : Bool :=
  hasSubChars pat.data s.data

/-- The behaviour of the external `ovs-vsctl del-port bridge port` command:
success when the port is attached; when the port does not exist the tool
exits 1 and prints `ovs-vsctl: no port named <port>` on stderr. -/
def delPortOutcome (s : SwitchState) (bridgeName portName : String) : ExecOutcome :=
  if (bridgeName, portName) ∈ s.ports then .success
  else .exitError 1 ("ovs-vsctl: no port named " ++ portName)

/-- Embeds `ovsManager.DeletePort`: run `del-port`; on error, return success if the
error's message contains "no port named", otherwise wrap and return the
error.  (The message examined is `err.Error()` of the `exec.ExitError`,
which is `"exit status <code>"`.) -/
def deletePort (s : SwitchState) (bridgeName portName : String) :
    Except String SwitchState :=
  let o := delPortOutcome s bridgeName portName
  match runCommandError o with
  | none =>
    .ok { s with ports := s.ports.filter (fun pr => pr ≠ (bridgeName, portName)) }
  | some msg =>
    if strContains msg "no port named" then .ok s
    else .error ("failed to delete port " ++ portName ++ " from bridge " ++
      bridgeName ++ ": " ++ msg)

/-! ## Flow wire-command building -/

/-- The four fields of `network.Flow` that `buildFlowSpec` reads (the
counter/age fields of the Go struct play no role in command building).
The Go field `Match` is called `matchField` here. -/
structure Flow where
  table : Int
  priority : Int
  matchField : String
  actions : String
deriving Repr, DecidableEq

/-- Go `strings.TrimSuffix spec ","`: drop one trailing comma if present. -/
def trimSuffixComma (s : String) : String :=
  if s.data.getLast? = some ',' then String.mk s.data.dropLast else s

/-- Embeds `ovsManager.buildFlowSpec`: append `table=<n>,` when the table is
positive, `priority=<n>,` when the priority is positive, the match text plus
a comma when nonempty, and `actions=<a>` when nonempty; finally trim one
trailing comma. -/
def buildFlowSpec (f : Flow) : String :=
  let s1 := if 0 < f.table then "" ++ ("table=" ++ toString f.table ++ ",") else ""
  let s2 := if 0 < f.priority then s1 ++ ("priority=" ++ toString f.priority ++ ",") else s1
  let s3 := if f.matchField ≠ "" then s2 ++ (f.matchField ++ ",") else s2
  let s4 := if f.actions ≠ "" then s3 ++ ("actions=" ++ f.actions) else s3
  trimSuffixComma s4

/-! ## The VPC data model and the relational store

`models.VPC` and `models.Subnet` (only the fields the embedded operations
read).  The `cidr_block` column holds the requested CIDR text; it is carried
here in parsed form, `none` standing for unparseable text.  Timestamps are
naturals. -/

structure VPC where
  id : String
  name : String
  cidrBlock : Option CIDR
  description : Option String
  userId : String
  createdAt : Nat
  updatedAt : Nat
deriving Repr, DecidableEq

structure Subnet where
  id : String
  vpcId : String
deriving Repr, DecidableEq

/-- The durable store plus the live switch: the `vpcs` and `subnets` tables
and the OVS state. -/
structure SysState where
  db : List VPC
  subnets : List Subnet
  switch : SwitchState
deriving Repr, DecidableEq

/-- The error values of `pkg/errors` that the VPC service produces or the
handler matches on. -/
inductive VPCError where
  | invalidCIDR : VPCError
  | vpcAlreadyExists : VPCError
  | cidrConflict : VPCError
  | vpcNotFound : VPCError
  | dbError (msg : String) : VPCError
  | ovsError (msg : String) : VPCError
deriving Repr, DecidableEq

/-- Embeds `vpcRepository.GetByName`: the row with this name owned by this user. -/
def getByName (db : List VPC) (name userId : String) : Option VPC :=
  db.find? (fun r => r.name == name && r.userId == userId)

/-- Embeds `vpcRepository.GetByID`: the row with this id owned by this user. -/
def getByID (db : List VPC) (id userId : String) : Option VPC :=
  db.find? (fun r => r.id == id && r.userId == userId)

/-- Embeds `vpcRepository.Delete`: `DELETE FROM vpcs WHERE id = $1 AND user_id = $2`. -/
def repoDelete (db : List VPC) (id userId : String) : List VPC :=
  db.filter (fun r => ¬ (r.id == id && r.userId == userId))

/-! ## The VPC service -/

/-- Embeds `dto.CreateVPCRequest`. -/
structure CreateVPCRequest where
  name : String
  cidrBlock : Option CIDR
  description : Option String
deriving Repr, DecidableEq

/-- Embeds `dto.UpdateVPCRequest`: both fields optional. -/
structure UpdateVPCRequest where
  name : Option String
  description : Option String
deriving Repr, DecidableEq

/-- Observable side-effect events of one `CreateVPC` run, in order: the
durable insert, the attempt to create the bridge, the rollback delete. -/
inductive Event where
  | dbInsert (id : String) : Event
  | bridgeCmd (name : String) : Event
  | dbDelete (id : String) : Event
deriving Repr, DecidableEq

/-- Result, final state and event trace of one `CreateVPC` run. -/
structure VPCOutcome where
  result : Except VPCError VPC
  state : SysState
  trace : List Event
deriving Repr

/-- Embeds `vpcService.CreateVPC`, step by step from the source: validate the CIDR
(`ErrInvalidCIDR`); check the name (`ErrVPCAlreadyExists`); insert the
record; derive the bridge name and call `CreateBridge`; on bridge failure,
roll back with `vpcRepo.Delete`, whose own failure is only logged.  `newId`
is the fresh `uuid.New().String()` and `now` the creation timestamp. -/
def createVPC (env : Env) (s : SysState) (userId : String)
    (req : CreateVPCRequest) (newId : String) (now : Nat) : VPCOutcome :=
  if ¬ validateCIDRBlock req.cidrBlock then
    ⟨.error .invalidCIDR, s, []⟩
  else
    match getByName s.db req.name userId with
    | some _ => ⟨.error .vpcAlreadyExists, s, []⟩
    | none =>
      if ¬ env.dbCreateOk then
        ⟨.error (.dbError "failed to create VPC"), s, []⟩
      else
        match createBridge env s.switch (bridgeNameOf newId) req.cidrBlock with
        | .ok sw =>
          ⟨.ok ⟨newId, req.name, req.cidrBlock, req.description, userId, now, now⟩,
           ⟨(⟨newId, req.name, req.cidrBlock, req.description, userId, now, now⟩ : VPC)
              :: s.db, s.subnets, sw⟩,
           [.dbInsert newId, .bridgeCmd (bridgeNameOf newId)]⟩
        | .error msg =>
          if env.dbDeleteOk then
            ⟨.error (.ovsError msg),
             ⟨repoDelete ((⟨newId, req.name, req.cidrBlock, req.description, userId,
                 now, now⟩ : VPC) :: s.db) newId userId, s.subnets, s.switch⟩,
             [.dbInsert newId, .bridgeCmd (bridgeNameOf newId), .dbDelete newId]⟩
          else
            ⟨.error (.ovsError msg),
             ⟨(⟨newId, req.name, req.cidrBlock, req.description, userId, now, now⟩ : VPC)
                :: s.db, s.subnets, s.switch⟩,
             [.dbInsert newId, .bridgeCmd (bridgeNameOf newId)]⟩

/-- The row transformation of `vpcRepository.Update` for the update map the
service builds: on the rows matching id and user, set the name when the map
carries one, the description when the map carries one, and always
`updated_at`; other rows are untouched. -/
def vpcUpdateApply (id userId : String) (nu du : Option String) (now : Nat)
    (r : VPC) : VPC :=
  if r.id == id && r.userId == userId then
    { r with
      name := nu.getD r.name
      description := match du with | some d => some d | none => r.description
      updatedAt := now }
  else r

/-- Embeds `vpcService.UpdateVPC`: look the record up; when a new, different name
is requested, reject it if another record of the user already bears it;
collect the name/description updates; an empty update set returns the
record unchanged; otherwise `vpcRepository.Update` sets the collected
fields plus `updated_at` on the rows matching id and user, and the updated
record is read back. -/
def updateVPC (s : SysState) (id userId : String) (req : UpdateVPCRequest)
    (now : Nat) : Except VPCError VPC × SysState :=
  match getByID s.db id userId with
  | none => (.error .vpcNotFound, s)
  | some existing =>
    match (match req.name with
      | some n =>
        if n ≠ existing.name then
          match getByName s.db n userId with
          | some conflict =>
            if conflict.id ≠ id then Except.error VPCError.vpcAlreadyExists
            else Except.ok (some n)
          | none => Except.ok (some n)
        else Except.ok none
      | none => (Except.ok none : Except VPCError (Option String))) with
    | .error e => (.error e, s)
    | .ok nu =>
      if nu.isNone && req.description.isNone then (.ok existing, s)
      else
        match getByID (s.db.map (vpcUpdateApply id userId nu req.description now))
            id userId with
        | some u =>
          (.ok u, { s with db := s.db.map (vpcUpdateApply id userId nu req.description now) })
        | none =>
          (.error (.dbError "failed to get updated VPC"),
           { s with db := s.db.map (vpcUpdateApply id userId nu req.description now) })

/-- Embeds `vpcService.DeleteVPC`: look the record up (`ErrVPCNotFound` when
absent); delete the derived bridge, ignoring any bridge-deletion error; then
delete the row.  No child subnet or port is consulted anywhere. -/
def deleteVPC (s : SysState) (id userId : String) :
    Except VPCError Unit × SysState :=
  match getByID s.db id userId with
  | none => (.error .vpcNotFound, s)
  | some _ =>
    let sw := deleteBridge s.switch (bridgeNameOf id)
    (.ok (), { s with switch := sw, db := repoDelete s.db id userId })

/-! ## Specification-side readings

The following definitions are written from the specification's wording, to
be compared against the code-derived definitions above. -/

/-- The spec's reading of flow-command building: the non-empty fields of the
flow, in the fixed order table, priority, match, actions, each rendered with
its wire keyword. -/
def flowFields (f : Flow) : List String :=
  (if 0 < f.table then ["table=" ++ toString f.table] else []) ++
  (if 0 < f.priority then ["priority=" ++ toString f.priority] else []) ++
  (if f.matchField ≠ "" then [f.matchField] else []) ++
  (if f.actions ≠ "" then ["actions=" ++ f.actions] else [])

/-- The spec's reading of concatenation with separators between fields and
no trailing separator. -/
def joinComma : List String → String
  | [] => ""
  | [a] => a
  | a :: b :: rest => a ++ "," ++ joinComma (b :: rest)

/-- The spec's reading of "lies entirely within" a range given by its base
address and size: both ends of the block fall inside the range's address
interval. -/
def blockWithinRange (lo sz : Nat) (c : CIDR) : Prop :=
  lo ≤ networkAddr c ∧ networkAddr c + 2 ^ (32 - c.ones) ≤ lo + sz

/-- The spec's reading of "lies entirely within one of the RFC1918 private
ranges 10.0.0.0/8, 172.16.0.0/12, 192.168.0.0/16". -/
def entirelyPrivateRFC1918 (c : CIDR) : Prop :=
  blockWithinRange (10 * 2 ^ 24) (2 ^ 24) c ∨
  blockWithinRange (172 * 2 ^ 24 + 16 * 2 ^ 16) (2 ^ 20) c ∨
  blockWithinRange (192 * 2 ^ 24 + 168 * 2 ^ 16) (2 ^ 16) c

/-! ## Helper lemmas -/

/-- Any call of `createBridge` on a name the switch already has returns an
error, whatever the environment, the CIDR or the rest of the state. -/
lemma createBridge_error_of_mem (env : Env) (s : SwitchState) (name : String)
    (cidr : Option CIDR) (h : name ∈ s.bridges) :
    ∃ msg, createBridge env s name cidr = .error msg := by
  by_cases hv : validateBridgeName name <;>
    simp [createBridge, hv, h]

/-- A successful `createBridge` run pushed the name onto the bridge list. -/
lemma createBridge_ok_shape (env : Env) (s : SwitchState) (name : String)
    (cidr : Option CIDR) (s₁ : SwitchState)
    (h : createBridge env s name cidr = .ok s₁) :
    s₁ = { s with bridges := name :: s.bridges } := by
  unfold createBridge at h
  split at h
  · exact absurd h (by simp)
  · split at h
    · exact absurd h (by simp)
    · cases cidr with
      | none => exact absurd h (by simp)
      | some c =>
        split at h
        · injection h
        · split at h
          · injection h with h'
            exact h'.symm
          · injection h

/-! ## Claim theorems -/

/-- C1: REFUTED — the bug is in the code.  The bridge name derived from a
VPC id is `"gcp-vpc-"` followed by the first 8 characters of the id: 16
characters in all, one more than the 15-character bound that
`validateBridgeName` enforces.  At a concrete UUID, the derived name has
length 16, name validation rejects it, and the service's VPC creation fails
on name grounds — so bridge creation is always, not never, rejected. -/
theorem c1_bridge_name_always_rejected :
    (bridgeNameOf "a1b2c3d4-e5f6-7890-abcd-ef1234567890").data.length = 16 ∧
    validateBridgeName (bridgeNameOf "a1b2c3d4-e5f6-7890-abcd-ef1234567890") = false ∧
    (createVPC ⟨true, true, true⟩ ⟨[], [], ⟨[], []⟩⟩ "user-1"
        ⟨"net-a", some ⟨10 * 2 ^ 24, 16⟩, none⟩
        "a1b2c3d4-e5f6-7890-abcd-ef1234567890" 0).result
      = .error (.ovsError "invalid bridge name") :=
  ⟨by decide, by decide, rfl⟩

/-- C2 counterexample: on an empty switch, creating the bridge `br0` twice
in sequence is not idempotent — the first call succeeds, the second returns
an "already exists" error instead of success. -/
theorem c2_counterexample :
    createBridge ⟨true, true, true⟩ ⟨[], []⟩ "br0" (some ⟨10 * 2 ^ 24, 16⟩)
      = .ok ⟨["br0"], []⟩ ∧
    createBridge ⟨true, true, true⟩ ⟨["br0"], []⟩ "br0" (some ⟨10 * 2 ^ 24, 16⟩)
      = .error "bridge br0 already exists" :=
  ⟨rfl, rfl⟩

/-- C2 amended: bridge creation is not idempotent.  Calling it for a name
that already denotes an existing bridge returns an error, and of two calls
in sequence the second always fails. -/
theorem c2_create_existing_bridge_errors :
    (∀ (env : Env) (s : SwitchState) (name : String) (cidr : Option CIDR),
      name ∈ s.bridges → ∃ msg, createBridge env s name cidr = .error msg) ∧
    (∀ (env : Env) (s : SwitchState) (name : String) (cidr : Option CIDR)
        (s₁ : SwitchState), createBridge env s name cidr = .ok s₁ →
      ∃ msg, createBridge env s₁ name cidr = .error msg) := by
  constructor
  · exact fun env s name cidr h => createBridge_error_of_mem env s name cidr h
  · intro env s name cidr s₁ h
    have hs := createBridge_ok_shape env s name cidr s₁ h
    exact createBridge_error_of_mem env s₁ name cidr (by simp [hs])

/-- C2 witness: the amended theorem applied to the concrete second call on
a switch that already has `br0`. -/
theorem c2_witness :
    ∃ msg, createBridge ⟨true, true, true⟩ ⟨["br0"], []⟩ "br0"
      (some ⟨10 * 2 ^ 24, 16⟩) = .error msg :=
  c2_create_existing_bridge_errors.1 ⟨true, true, true⟩ ⟨["br0"], []⟩ "br0"
    (some ⟨10 * 2 ^ 24, 16⟩) (by decide)

/-- C4 counterexample: a VPC with a still-existing child subnet is deleted;
its bridge is removed anyway (and the record deleted), while the subnet
remains — the deletion never consults the children. -/
theorem c4_counterexample :
    deleteVPC
        ⟨[⟨"b4b4c3d4-e5f6-7890-abcd-ef1234567890", "net-a",
           some ⟨10 * 2 ^ 24, 16⟩, none, "u1", 0, 0⟩],
         [⟨"subnet-1", "b4b4c3d4-e5f6-7890-abcd-ef1234567890"⟩],
         ⟨["gcp-vpc-b4b4c3d4"], []⟩⟩
        "b4b4c3d4-e5f6-7890-abcd-ef1234567890" "u1"
      = (.ok (),
         ⟨[], [⟨"subnet-1", "b4b4c3d4-e5f6-7890-abcd-ef1234567890"⟩], ⟨[], []⟩⟩) := rfl

/-- C4 amended: VPC deletion removes the bridge and the durable record
unconditionally; child subnets are never consulted, are left untouched, and
do not prevent the bridge's removal. -/
theorem c4_delete_ignores_children :
    ∀ (s : SysState) (id userId : String) (v : VPC),
      s.switch.bridges.Nodup →
      getByID s.db id userId = some v →
      (deleteVPC s id userId).1 = .ok () ∧
      bridgeNameOf id ∉ (deleteVPC s id userId).2.switch.bridges ∧
      getByID (deleteVPC s id userId).2.db id userId = none ∧
      (deleteVPC s id userId).2.subnets = s.subnets := by
  intro s id userId v hnd hfound
  unfold deleteVPC
  rw [hfound]
  refine ⟨rfl, ?_, ?_, rfl⟩
  · exact hnd.not_mem_erase
  · simp only [getByID, repoDelete, List.find?_eq_none]
    intro r hr
    have h2 := (List.mem_filter.mp hr).2
    simp at h2 ⊢
    tauto

/-- C4 witness: the amended theorem at a concrete state that still holds a
child subnet of the VPC being deleted. -/
theorem c4_witness :
    (deleteVPC
        ⟨[⟨"b4b4c3d4-e5f6-7890-abcd-ef1234567890", "net-a",
           some ⟨10 * 2 ^ 24, 16⟩, none, "u1", 0, 0⟩],
         [⟨"subnet-1", "b4b4c3d4-e5f6-7890-abcd-ef1234567890"⟩],
         ⟨["gcp-vpc-b4b4c3d4"], []⟩⟩
        "b4b4c3d4-e5f6-7890-abcd-ef1234567890" "u1").1 = .ok () ∧
    bridgeNameOf "b4b4c3d4-e5f6-7890-abcd-ef1234567890" ∉
      (deleteVPC
        ⟨[⟨"b4b4c3d4-e5f6-7890-abcd-ef1234567890", "net-a",
           some ⟨10 * 2 ^ 24, 16⟩, none, "u1", 0, 0⟩],
         [⟨"subnet-1", "b4b4c3d4-e5f6-7890-abcd-ef1234567890"⟩],
         ⟨["gcp-vpc-b4b4c3d4"], []⟩⟩
        "b4b4c3d4-e5f6-7890-abcd-ef1234567890" "u1").2.switch.bridges := by
  have h := c4_delete_ignores_children
    ⟨[⟨"b4b4c3d4-e5f6-7890-abcd-ef1234567890", "net-a",
       some ⟨10 * 2 ^ 24, 16⟩, none, "u1", 0, 0⟩],
     [⟨"subnet-1", "b4b4c3d4-e5f6-7890-abcd-ef1234567890"⟩],
     ⟨["gcp-vpc-b4b4c3d4"], []⟩⟩
    "b4b4c3d4-e5f6-7890-abcd-ef1234567890" "u1"
    ⟨"b4b4c3d4-e5f6-7890-abcd-ef1234567890", "net-a",
     some ⟨10 * 2 ^ 24, 16⟩, none, "u1", 0, 0⟩
    (by decide) rfl
  exact ⟨h.1, h.2.1⟩

/-- C5: REFUTED — the bug is in the code.  `CreateVPC` never calls the
repository's `CheckCIDRConflict` and never produces `ErrCIDRConflict`
(which the repository and the HTTP handler both prepare for).  Concretely:
with an existing VPC of user `u1` holding `10.0.0.0/16`, creating a second
VPC of the same user with the same CIDR but a fresh name succeeds outright
(first conjunct, short id), and with a realistic UUID id the action still
inserts the durable record rather than rejecting the duplicate (second
conjunct). -/
theorem c5_duplicate_cidr_not_rejected :
    (createVPC ⟨true, true, true⟩
        ⟨[⟨"vpc-1", "net-a", some ⟨10 * 2 ^ 24, 16⟩, none, "u1", 0, 0⟩], [], ⟨[], []⟩⟩
        "u1" ⟨"net-b", some ⟨10 * 2 ^ 24, 16⟩, none⟩ "ff" 5).result
      = .ok ⟨"ff", "net-b", some ⟨10 * 2 ^ 24, 16⟩, none, "u1", 5, 5⟩ ∧
    (createVPC ⟨true, true, true⟩
        ⟨[⟨"vpc-1", "net-a", some ⟨10 * 2 ^ 24, 16⟩, none, "u1", 0, 0⟩], [], ⟨[], []⟩⟩
        "u1" ⟨"net-b", some ⟨10 * 2 ^ 24, 16⟩, none⟩
        "a1b2c3d4-e5f6-7890-abcd-ef1234567890" 5).trace.head?
      = some (.dbInsert "a1b2c3d4-e5f6-7890-abcd-ef1234567890") :=
  ⟨rfl, rfl⟩

/-- C6: REFUTED — the bug is in the code.  Deleting an absent port is meant
to be a no-op success (the code's own comment says "Port doesn't exist,
nothing to do"), but the guard tests `err.Error()` of the `exec.ExitError`,
which is the string `"exit status 1"`: `cmd.Run()` discards the child's
stderr, so the tool's `"ovs-vsctl: no port named p0"` diagnostic never
reaches the check and `DeletePort` returns an error instead of success. -/
theorem c6_delete_absent_port_errors :
    delPortOutcome ⟨["br0"], []⟩ "br0" "p0"
      = .exitError 1 "ovs-vsctl: no port named p0" ∧
    strContains "exit status 1" "no port named" = false ∧
    deletePort ⟨["br0"], []⟩ "br0" "p0"
      = .error "failed to delete port p0 from bridge br0: exit status 1" :=
  ⟨rfl, by decide, rfl⟩

/-- C9: CONFIRMED — `BridgeExists` maps the tool's exit status 2 (and only
it) to the defined "bridge absent" outcome `(false, nil)`, exit 0 (and only
it) to `(true, nil)`, and every other outcome — unexpected non-zero exit or
a command that could not run — to an error, so absence and tool failure are
never conflated. -/
theorem c9_bridge_exists_distinguishes :
    (∀ o : ExecOutcome, bridgeExists o = .ok false ↔ ∃ st, o = .exitError 2 st) ∧
    (∀ o : ExecOutcome, bridgeExists o = .ok true ↔ o = .success) ∧
    (∀ o : ExecOutcome,
      (∃ msg, bridgeExists o = .error msg) ↔
        (o ≠ .success ∧ ∀ st, o ≠ .exitError 2 st)) := by
  refine ⟨fun o => ?_, fun o => ?_, fun o => ?_⟩ <;>
    cases o with
    | success => simp [bridgeExists]
    | exitError code st =>
      by_cases h : code = 2 <;> simp [bridgeExists, h]
    | execFailure m => simp [bridgeExists]

/-- C9 witness: the characterization applied at the concrete absent-bridge
outcome, exit status 2. -/
theorem c9_witness :
    bridgeExists (.exitError 2 "") = .ok false :=
  (c9_bridge_exists_distinguishes.1 (.exitError 2 "")).mpr ⟨"", rfl⟩

/-- Deleting a row whose id/user pair occurs nowhere in the given rows
removes exactly the freshly prepended record. -/
lemma repoDelete_insert_fresh (db : List VPC) (vpc : VPC)
    (h : ∀ r ∈ db, ¬ (r.id = vpc.id ∧ r.userId = vpc.userId)) :
    repoDelete (vpc :: db) vpc.id vpc.userId = db := by
  simp only [repoDelete, List.filter_cons]
  rw [if_neg (by simp)]
  rw [List.filter_eq_self.mpr]
  intro r hr
  have hn := h r hr
  simp only [decide_not, Bool.not_eq_true', decide_eq_false_iff_not]
  intro hc
  rw [Bool.and_eq_true] at hc
  exact hn ⟨by simpa using hc.1, by simpa using hc.2⟩

/-- C3 counterexample: bridge creation fails after a successful durable
insert and the rollback delete also fails — the failed action leaves the
durable record behind (first conjunct), contradicting "a failed action
leaves neither a record nor a bridge". -/
theorem c3_counterexample :
    (createVPC ⟨true, true, false⟩ ⟨[], [], ⟨[], []⟩⟩ "u1"
        ⟨"net-a", some ⟨10 * 2 ^ 24, 16⟩, none⟩
        "a1b2c3d4-e5f6-7890-abcd-ef1234567890" 0).state.db
      = [⟨"a1b2c3d4-e5f6-7890-abcd-ef1234567890", "net-a", some ⟨10 * 2 ^ 24, 16⟩,
          none, "u1", 0, 0⟩] ∧
    (createVPC ⟨true, true, false⟩ ⟨[], [], ⟨[], []⟩⟩ "u1"
        ⟨"net-a", some ⟨10 * 2 ^ 24, 16⟩, none⟩
        "a1b2c3d4-e5f6-7890-abcd-ef1234567890" 0).result
      = .error (.ovsError "invalid bridge name") :=
  ⟨rfl, rfl⟩

/-- C3 amended: `CreateVPC` persists the durable record first and only then
attempts the bridge — any run whose trace reaches the bridge command starts
with the insert.  If the insert fails, nothing is touched.  If bridge
creation fails, the rollback delete restores the original state when it
succeeds, but is best-effort: when it also fails, the record remains (the
switch is untouched either way).  A success leaves both the record and the
bridge. -/
theorem c3_persist_first_best_effort_rollback :
    ∀ (env : Env) (s : SysState) (userId : String) (req : CreateVPCRequest)
      (newId : String) (now : Nat),
      (Event.bridgeCmd (bridgeNameOf newId) ∈ (createVPC env s userId req newId now).trace →
        (createVPC env s userId req newId now).trace.head? = some (.dbInsert newId)) ∧
      (env.dbCreateOk = false → (createVPC env s userId req newId now).state = s) ∧
      (∀ msg, (createVPC env s userId req newId now).result = .error (.ovsError msg) →
        env.dbDeleteOk = true →
        (∀ r ∈ s.db, ¬ (r.id = newId ∧ r.userId = userId)) →
        (createVPC env s userId req newId now).state = s) ∧
      (∀ msg, (createVPC env s userId req newId now).result = .error (.ovsError msg) →
        env.dbDeleteOk = false →
        (createVPC env s userId req newId now).state.db
            = (⟨newId, req.name, req.cidrBlock, req.description, userId, now, now⟩ : VPC)
                :: s.db ∧
          (createVPC env s userId req newId now).state.switch = s.switch) ∧
      (∀ v, (createVPC env s userId req newId now).result = .ok v →
        (createVPC env s userId req newId now).state.db = v :: s.db ∧
        (createVPC env s userId req newId now).state.switch.bridges
          = bridgeNameOf newId :: s.switch.bridges) := by
  intro env s userId req newId now
  obtain ⟨db, subs, swst⟩ := s
  unfold createVPC
  split
  · simp
  · split
    · simp
    · split
      next hdb => simp_all
      next hdb =>
        split
        next sw heq =>
          have hsw := createBridge_ok_shape _ _ _ _ _ heq
          subst hsw
          refine ⟨fun _ => rfl, ?_, by simp, by simp, ?_⟩
          · intro h2
            rw [h2] at hdb
            simp at hdb
          · intro v hv
            injection hv with hv'
            subst hv'
            exact ⟨rfl, rfl⟩
        next msg heq =>
          split
          next hdel =>
            refine ⟨fun _ => rfl, ?_, ?_, ?_, by simp⟩
            · intro h2
              rw [h2] at hdb
              simp at hdb
            · intro msg' _ _ hfresh
              have hr : repoDelete ((⟨newId, req.name, req.cidrBlock, req.description,
                    userId, now, now⟩ : VPC) :: db) newId userId = db :=
                repoDelete_insert_fresh db
                  ⟨newId, req.name, req.cidrBlock, req.description, userId, now, now⟩
                  hfresh
              show (⟨repoDelete ((⟨newId, req.name, req.cidrBlock, req.description,
                  userId, now, now⟩ : VPC) :: db) newId userId, subs, swst⟩ : SysState)
                = ⟨db, subs, swst⟩
              rw [hr]
            · intro msg' _ hfalse
              rw [hfalse] at hdel
              simp at hdel
          next hdel =>
            refine ⟨fun _ => rfl, ?_, ?_, fun msg' _ _ => ⟨rfl, rfl⟩, by simp⟩
            · intro h2
              rw [h2] at hdb
              simp at hdb
            · intro msg' _ htrue
              exact absurd htrue hdel

/-- C3 witness: the amended theorem at concrete inputs — a successful run
(short id `"ff"`, so the derived bridge name is valid) leaves both the
record and the bridge, and a run with a failing bridge step and a working
rollback delete restores the empty state. -/
theorem c3_witness :
    ((createVPC ⟨true, true, true⟩ ⟨[], [], ⟨[], []⟩⟩ "u1"
        ⟨"net-a", some ⟨10 * 2 ^ 24, 16⟩, none⟩ "ff" 5).state.db
      = [⟨"ff", "net-a", some ⟨10 * 2 ^ 24, 16⟩, none, "u1", 5, 5⟩] ∧
     (createVPC ⟨true, true, true⟩ ⟨[], [], ⟨[], []⟩⟩ "u1"
        ⟨"net-a", some ⟨10 * 2 ^ 24, 16⟩, none⟩ "ff" 5).state.switch.bridges
      = ["gcp-vpc-ff"]) ∧
    (createVPC ⟨true, true, true⟩ ⟨[], [], ⟨[], []⟩⟩ "u1"
        ⟨"net-a", some ⟨10 * 2 ^ 24, 16⟩, none⟩
        "a1b2c3d4-e5f6-7890-abcd-ef1234567890" 0).state
      = ⟨[], [], ⟨[], []⟩⟩ := by
  constructor
  · have h := (c3_persist_first_best_effort_rollback ⟨true, true, true⟩
      ⟨[], [], ⟨[], []⟩⟩ "u1" ⟨"net-a", some ⟨10 * 2 ^ 24, 16⟩, none⟩ "ff" 5).2.2.2.2
      ⟨"ff", "net-a", some ⟨10 * 2 ^ 24, 16⟩, none, "u1", 5, 5⟩ (by rfl)
    exact ⟨h.1, h.2⟩
  · exact (c3_persist_first_best_effort_rollback ⟨true, true, true⟩
      ⟨[], [], ⟨[], []⟩⟩ "u1" ⟨"net-a", some ⟨10 * 2 ^ 24, 16⟩, none⟩
      "a1b2c3d4-e5f6-7890-abcd-ef1234567890" 0).2.2.1
      "invalid bridge name" (by rfl) rfl (by simp)

/-- A list is pointwise related to its image under a map. -/
lemma forall₂_map_self {α : Type} (P : α → α → Prop) (g : α → α)
    (h : ∀ a, P a (g a)) : ∀ l : List α, List.Forall₂ P l (l.map g)
  | [] => List.Forall₂.nil
  | a :: rest => List.Forall₂.cons (h a) (forall₂_map_self P g h rest)

/-- The row transformation of an update never touches the id, the CIDR
block, the owning user or the creation timestamp. -/
lemma vpcUpdateApply_frame (id userId : String) (nu du : Option String)
    (now : Nat) (r : VPC) :
    (vpcUpdateApply id userId nu du now r).id = r.id ∧
    (vpcUpdateApply id userId nu du now r).cidrBlock = r.cidrBlock ∧
    (vpcUpdateApply id userId nu du now r).userId = r.userId ∧
    (vpcUpdateApply id userId nu du now r).createdAt = r.createdAt := by
  unfold vpcUpdateApply
  split <;> exact ⟨rfl, rfl, rfl, rfl⟩

/-- C10: CONFIRMED — after any `UpdateVPC` run, every stored row keeps its
id, CIDR block, owning user and creation timestamp (so at most name,
description and `updated_at` change), and a request carrying neither a new
name nor a new description leaves the store entirely unmodified. -/
theorem c10_update_frame :
    (∀ (s : SysState) (id userId : String) (req : UpdateVPCRequest) (now : Nat),
      List.Forall₂ (fun r₀ r₁ : VPC =>
          r₁.id = r₀.id ∧ r₁.cidrBlock = r₀.cidrBlock ∧
          r₁.userId = r₀.userId ∧ r₁.createdAt = r₀.createdAt)
        s.db (updateVPC s id userId req now).2.db) ∧
    (∀ (s : SysState) (id userId : String) (now : Nat),
      (updateVPC s id userId ⟨none, none⟩ now).2 = s) := by
  constructor
  · intro s id userId req now
    unfold updateVPC
    repeat' split
    all_goals
      first
        | exact List.forall₂_same.mpr fun x _ => ⟨rfl, rfl, rfl, rfl⟩
        | exact forall₂_map_self _ _
            (fun r => vpcUpdateApply_frame id userId _ _ now r) s.db
  · intro s id userId now
    unfold updateVPC
    split <;> rfl

/-! ### String helpers for the flow-spec proof -/

lemma string_ext {a b : String} (h : a.data = b.data) : a = b := by
  cases a
  cases b
  exact congrArg String.mk h

lemma mk_data (s : String) : String.mk s.data = s := by
  cases s
  rfl

lemma str_data_append (a b : String) : (a ++ b).data = a.data ++ b.data := rfl

lemma data_empty_str : ("" : String).data = [] := rfl

lemma data_comma_str : ("," : String).data = [','] := rfl

lemma str_append_assoc (a b c : String) : a ++ b ++ c = a ++ (b ++ c) :=
  string_ext (by simp only [str_data_append, List.append_assoc])

lemma data_ne_nil (s : String) (h : s ≠ "") : s.data ≠ [] := by
  intro hd
  exact h (string_ext (by rw [hd, data_empty_str]))

lemma getLast?_append_ne (l₁ : List Char) : ∀ (l₂ : List Char), l₂ ≠ [] →
    (l₁ ++ l₂).getLast? = l₂.getLast?
  | [], h => absurd rfl h
  | _ :: _, _ => by rw [List.getLast?_append]; rfl

lemma trim_of_getLast_ne (s : String) (h : s.data.getLast? ≠ some ',') :
    trimSuffixComma s = s := by
  unfold trimSuffixComma
  rw [if_neg h]

lemma trim_append_comma (s : String) : trimSuffixComma (s ++ ",") = s := by
  unfold trimSuffixComma
  rw [str_data_append, data_comma_str, List.getLast?_concat, if_pos rfl,
    List.dropLast_concat]

lemma trim_append_actions (X a : String) (ha : a ≠ "")
    (h : a.data.getLast? ≠ some ',') :
    trimSuffixComma (X ++ ("actions=" ++ a)) = X ++ ("actions=" ++ a) := by
  apply trim_of_getLast_ne
  rw [str_data_append, str_data_append]
  rw [getLast?_append_ne _ _ (by
    intro hnil
    exact data_ne_nil a ha (List.append_eq_nil.mp hnil).2)]
  rw [getLast?_append_ne _ _ (data_ne_nil a ha)]
  exact h

/-- C8: CONFIRMED — for every flow whose actions text does not itself end
in a comma, the built wire command is exactly the non-empty fields of the
flow (table as `table=<n>` when positive, priority as `priority=<n>` when
positive, the match text, actions as `actions=<a>`), in that fixed order,
joined by single commas with no trailing separator. -/
theorem c8_flow_spec_fields (f : Flow) (h : f.actions.data.getLast? ≠ some ',') :
    buildFlowSpec f = joinComma (flowFields f) := by
  unfold buildFlowSpec flowFields
  by_cases h1 : 0 < f.table <;> by_cases h2 : 0 < f.priority <;>
    by_cases h3 : f.matchField = "" <;> by_cases h4 : f.actions = "" <;>
    simp only [h1, h2, h3, h4, if_true, if_false, ite_true, ite_false, ne_eq,
      not_true_eq_false, not_false_eq_true,
      List.append_nil, List.nil_append, List.cons_append, List.singleton_append]
  all_goals first
    | (rw [← str_append_assoc, trim_append_comma]
       apply string_ext
       simp [joinComma, str_data_append, data_empty_str, data_comma_str,
         List.append_assoc])
    | (rw [trim_append_actions _ _ h4 h]
       apply string_ext
       simp [joinComma, str_data_append, data_empty_str, data_comma_str,
         List.append_assoc])
    | rfl

/-- C8 witness: the theorem applied to a concrete flow; both sides evaluate
to `"table=1,priority=100,ip,actions=drop"`. -/
theorem c8_witness :
    ("drop" : String).data.getLast? ≠ some ',' ∧
    buildFlowSpec ⟨1, 100, "ip", "drop"⟩ = joinComma (flowFields ⟨1, 100, "ip", "drop"⟩) :=
  ⟨by decide, c8_flow_spec_fields ⟨1, 100, "ip", "drop"⟩ (by decide)⟩

/-- For prefix lengths in `[16, 28]`, the code's test — the masked network
address lies in a private range — coincides with the spec's test — the
whole block lies in a private range — because the block is aligned and no
larger than any of the three ranges. -/
lemma isPrivate_iff_entirely (c : CIDR) (h16 : 16 ≤ c.ones) (h28 : c.ones ≤ 28) :
    isPrivateAddr (networkAddr c) = true ↔ entirelyPrivateRFC1918 c := by
  obtain ⟨ip, ones⟩ := c
  simp only [isPrivateAddr, inNet, networkAddr, entirelyPrivateRFC1918,
    blockWithinRange, Bool.or_eq_true, decide_eq_true_eq] at *
  interval_cases ones <;> norm_num <;> omega

/-- C7: CONFIRMED — `validateCIDRBlock` accepts exactly the syntactically
valid CIDRs whose block lies entirely within one of the RFC1918 ranges with
prefix length in `[16, 28]` (first conjunct), and any rejected CIDR makes
`CreateVPC` return the validation error with nothing created (second
conjunct). -/
theorem c7_cidr_validation :
    (∀ oc : Option CIDR, validateCIDRBlock oc = true ↔
      ∃ c, oc = some c ∧ entirelyPrivateRFC1918 c ∧ 16 ≤ c.ones ∧ c.ones ≤ 28) ∧
    (∀ (env : Env) (s : SysState) (userId : String) (req : CreateVPCRequest)
        (newId : String) (now : Nat),
      validateCIDRBlock req.cidrBlock = false →
      createVPC env s userId req newId now = ⟨.error .invalidCIDR, s, []⟩) := by
  constructor
  · intro oc
    cases oc with
    | none => simp [validateCIDRBlock]
    | some c =>
      simp only [validateCIDRBlock, Bool.and_eq_true, decide_eq_true_eq,
        Option.some.injEq]
      constructor
      · rintro ⟨⟨hp, hb1⟩, hb2⟩
        exact ⟨c, rfl, (isPrivate_iff_entirely c hb1 hb2).mp hp, hb1, hb2⟩
      · rintro ⟨c', hc', hpriv, hb1, hb2⟩
        subst hc'
        exact ⟨⟨(isPrivate_iff_entirely c hb1 hb2).mpr hpriv, hb1⟩, hb2⟩
  · intro env s userId req newId now hval
    unfold createVPC
    rw [if_pos (by simp [hval])]

/-- C7 witness: `10.0.0.0/16` is accepted (via the characterization), and a
syntactically invalid CIDR makes `CreateVPC` return the validation error
leaving the empty state untouched. -/
theorem c7_witness :
    validateCIDRBlock (some ⟨10 * 2 ^ 24, 16⟩) = true ∧
    createVPC ⟨true, true, true⟩ ⟨[], [], ⟨[], []⟩⟩ "u1"
        ⟨"net-a", none, none⟩ "ff" 0
      = ⟨.error .invalidCIDR, ⟨[], [], ⟨[], []⟩⟩, []⟩ := by
  constructor
  · exact (c7_cidr_validation.1 (some ⟨10 * 2 ^ 24, 16⟩)).mpr
      ⟨⟨10 * 2 ^ 24, 16⟩, rfl, Or.inl ⟨by decide, by decide⟩, by decide, by decide⟩
  · exact c7_cidr_validation.2 ⟨true, true, true⟩ ⟨[], [], ⟨[], []⟩⟩ "u1"
      ⟨"net-a", none, none⟩ "ff" 0 rfl

end GCP
